import Mathlib

/-!
# Verification of the ITR profile-scraping pipeline

A shallow embedding of `app/services/itr_service.py` and
`app/tasks/profile_tasks.py`: the retry/wait primitives, the navigator's
short-circuit, the extractor's output record, the orchestrator
`fetch_itr_profile`, and the background-task result envelope.  Awaited
browser effects (navigations, element clicks, the per-attempt outcome of a
login) are modelled as explicit inputs; each embedded function returns the
value the Python function returns together with a trace of the effects it
performed, so that claims about call counts and cleanup are statable.
-/

deriving instance DecidableEq for Except

namespace ItrService

/-! ## `retry_async` (itr_service.py lines 68-86)

`retry_async(fn, attempts, base_backoff_ms, on_retry)` runs
`for i in range(1, attempts + 1)`, returning `fn()`'s value on success; on
an exception it records it as `last_exc`, breaks when `i == attempts`,
otherwise calls `on_retry(i, e)`, draws
`jitter = random.randint(0, base_backoff_ms // 3)` and sleeps
`(base_backoff_ms * i + jitter) / 1000` seconds; after the loop it executes
`raise last_exc`.  When the loop body never ran, `last_exc` is still `None`
and `raise None` produces a `TypeError`.

The embedding takes the outcome of the `i`-th invocation of `fn` as
`outcomes i` and the `i`-th jitter draw as `jitter i`, and returns the
result together with the number of invocations, the `on_retry` calls and
the sleep durations (in milliseconds). -/

/-- Result of `retry_async`: the action's value, the re-raised last error,
or the `TypeError` arising from `raise None` when no attempt ever ran. -/
inductive RetryResult (ε α : Type) where
  | ok : α → RetryResult ε α
  | lastError : ε → RetryResult ε α
  | raiseNoneTypeError : RetryResult ε α
deriving DecidableEq, Repr

/-- Observable behaviour of one `retry_async` call. -/
structure RetryTrace (ε α : Type) where
  result : RetryResult ε α
  calls : Nat
  onRetryCalls : List (Nat × ε)
  sleeps : List Nat
deriving DecidableEq, Repr

/-- The `for i in range(1, attempts + 1)` loop body of `retry_async`;
`i` is the current attempt number, `rem` the number of iterations left.
The `rem = 0` case is only reached when the range was empty. -/
def retryLoop (outcomes : Nat → Except ε α) (base : Nat) (jitter : Nat → Nat) :
    Nat → Nat → RetryTrace ε α
  | _, 0 => ⟨.raiseNoneTypeError, 0, [], []⟩
  | i, rem + 1 =>
    match outcomes i with
    | .ok v => ⟨.ok v, 1, [], []⟩
    | .error e =>
      if rem = 0 then
        ⟨.lastError e, 1, [], []⟩
      else
        let t := retryLoop outcomes base jitter (i + 1) rem
        ⟨t.result, t.calls + 1, (i, e) :: t.onRetryCalls,
          (base * i + jitter i) :: t.sleeps⟩

/-- `retry_async` itself.  `attempts` is a Python `int`; the loop runs
`Int.toNat attempts` iterations, starting at attempt number 1. -/
def retry_async (outcomes : Nat → Except ε α) (attempts : Int) (base : Nat)
    (jitter : Nat → Nat) : RetryTrace ε α :=
  retryLoop outcomes base jitter 1 attempts.toNat

/-! ## `wait_until` (itr_service.py lines 55-65)

`wait_until(predicate_async, timeout_ms, interval_ms=400)` computes
`end = loop.time() + timeout_ms / 1000` and, while `loop.time() < end`,
evaluates the predicate inside `try: ... except Exception: pass` — returning
`True` on a `True` result, otherwise sleeping `interval_ms / 1000` — and
returns `False` once the deadline passes.

The embedding treats predicate evaluation as instantaneous, so the `k`-th
poll happens at time `k * interval_ms` after the start; `polls k` is its
outcome, with `.error ()` modelling the predicate raising.  The function is
total into `Bool`: no poll outcome makes it raise.  `fuel` bounds the
iteration count and never runs out when `interval_ms ≥ 1` (at most
`timeout_ms` iterations fit before the deadline). -/

/-- The polling loop of `wait_until`: at absolute time `t` and poll index
`k`, poll while `t < endT`, advancing time by `interval` per iteration. -/
def waitLoop (polls : Nat → Except Unit Bool) (endT interval : Nat) :
    Nat → Nat → Nat → Bool
  | 0, _, _ => false
  | fuel + 1, t, k =>
    if t < endT then
      match polls k with
      | .ok true => true
      | _ => waitLoop polls endT interval fuel (t + interval) (k + 1)
    else false

/-- `wait_until(predicate, timeout_ms, interval_ms)`. -/
def wait_until (polls : Nat → Except Unit Bool) (timeout_ms : Nat)
    (interval_ms : Nat := 400) : Bool :=
  waitLoop polls timeout_ms interval_ms timeout_ms 0 0

/-- A raising poll is indistinguishable from one returning `False`: this is
the outcome stream with every exception replaced by a `False` return. -/
def swallowPolls (polls : Nat → Except Unit Bool) : Nat → Except Unit Bool :=
  fun k =>
    match polls k with
    | .ok b => .ok b
    | .error _ => .ok false

/-! ## String helpers

Python's `or` on strings treats `""` as falsy; `_normalize` (lines 346-349)
collapses whitespace runs to single spaces and strips the ends, which is the
same as joining the whitespace-separated words with single spaces. -/

/-- ASCII whitespace, as matched by `\s` in the source's regexes. -/
def isWsChar (c : Char) : Bool :=
  c = ' ' || c = '\t' || c = '\n' || c = '\r' || c = '\x0b' || c = '\x0c'

/-- `re.sub(r"\s+", " ", s).strip()`. -/
def normalizeWs (s : String) : String :=
  String.intercalate " " ((s.split isWsChar).filter (fun w => w ≠ ""))

/-- `_normalize` applied to a `str` value: `if not s: return ""` then the
whitespace collapse. -/
def pyNormalize (s : String) : String :=
  if s = "" then "" else normalizeWs s

/-- Python `a or b` where `a` may be an absent argument and `""` is falsy. -/
def pyStrOr (a : Option String) (b : String) : String :=
  match a with
  | some s => if s = "" then b else s
  | none => b

/-- Collapse `""` to `None`, as `x or None` does after an `or` chain. -/
def nonEmptyOpt : Option String → Option String
  | some s => if s = "" then none else some s
  | none => none

/-- Python `a or b or None` on optional strings. -/
def pyOptOr (a b : Option String) : Option String :=
  match nonEmptyOpt a with
  | some s => some s
  | none => nonEmptyOpt b

/-- `pat.isPrefixOf`-style check on explicit character lists. -/
def charListStartsWith : List Char → List Char → Bool
  | _, [] => true
  | [], _ :: _ => false
  | c :: cs, d :: ds => c = d && charListStartsWith cs ds

/-- Substring occurrence on character lists. -/
def charListContains (s pat : List Char) : Bool :=
  match s with
  | [] => charListStartsWith [] pat
  | _ :: rest => charListStartsWith s pat || charListContains rest pat

/-- Python's `pat in s` substring test. -/
def strContains (s pat : String) : Bool :=
  charListContains s.data pat.data

/-! ## `extract_profile_data` (itr_service.py lines 372-463)

The in-page script iterates a fixed label list; for each label it tries the
label-adjacent sibling lookup, then the ancestor-container aggregation, then
a regex over the page text, and stores the first non-empty value:
`if (value) fields[label] = value;`.  The returned object maps each output
key to `fields[<label>] || ""` (with fallback label chains for the
organisation name and company type), plus `raw: fields`,
`title: document.title || ""` and `url: location.href || ""`.  Back in
Python, every `str`-valued key is passed through `_normalize`; `raw` is a
`dict` and is left untouched.

The DOM search cascade is abstracted as `lookup : String → String`, the
value the cascade produces for a label (`""` when all three strategies
fail).  The returned object is an association list so that the presence or
absence of a key is statable. -/

/-- A value of the profile object: a string field or the `raw` sub-map. -/
inductive JsVal where
  | str : String → JsVal
  | obj : List (String × String) → JsVal
deriving DecidableEq, Repr

/-- The `labels` array of the in-page script. -/
def jsLabels : List String :=
  ["Name of Organisation", "Name of Organization", "Name as per PAN",
   "Date of Incorporation", "PAN", "PAN Status", "Residential Status",
   "Type of Company", "Constitution of Business", "Email", "Mobile",
   "Address"]

/-- The `fields` object after the label loop: exactly the labels whose
cascade produced a non-empty value, in label-list order. -/
def observedFields (lookup : String → String) : List (String × String) :=
  jsLabels.filterMap fun l =>
    if lookup l = "" then none else some (l, lookup l)

/-- JavaScript `a || b` on strings (`""` is falsy). -/
def jsOr (a b : String) : String := if a = "" then b else a

/-- JavaScript `fields[l] || ""`. -/
def fget (fields : List (String × String)) (l : String) : String :=
  match List.lookup l fields with
  | some v => v
  | none => ""

/-- The object literal returned by the `page.evaluate` script. -/
def extractRecord (lookup : String → String) (title url : String) :
    List (String × JsVal) :=
  let fields := observedFields lookup
  [("nameOfOrganisation",
      .str (jsOr (fget fields "Name of Organisation")
        (jsOr (fget fields "Name of Organization")
          (fget fields "Name as per PAN")))),
   ("dateOfIncorporation", .str (fget fields "Date of Incorporation")),
   ("pan", .str (fget fields "PAN")),
   ("panStatus", .str (fget fields "PAN Status")),
   ("residentialStatus", .str (fget fields "Residential Status")),
   ("typeOfCompany",
      .str (jsOr (fget fields "Type of Company")
        (fget fields "Constitution of Business"))),
   ("email", .str (fget fields "Email")),
   ("mobile", .str (fget fields "Mobile")),
   ("address", .str (fget fields "Address")),
   ("raw", .obj fields),
   ("title", .str (jsOr title "")),
   ("url", .str (jsOr url ""))]

/-- `extract_profile_data`: the evaluated object, with the Python
normalization loop applied to every `str` value (the `raw` dict is not a
`str` and is skipped). -/
def extract_profile_data (lookup : String → String) (title url : String) :
    List (String × JsVal) :=
  (extractRecord lookup title url).map fun kv =>
    match kv.2 with
    | .str s => (kv.1, .str (pyNormalize s))
    | .obj m => (kv.1, .obj m)

/-- The eleven string-valued keys of the output record. -/
def profileStringKeys : List String :=
  ["nameOfOrganisation", "dateOfIncorporation", "pan", "panStatus",
   "residentialStatus", "typeOfCompany", "email", "mobile", "address",
   "title", "url"]

/-! ## `spa_safe_goto_profile` (itr_service.py lines 309-343)

The navigator first runs both modal dismissers, then short-circuits when
`"profileDetail" in (page.url or "")`; otherwise it calls
`page.goto(cfg.profile_url, ...)` (falling back to a hash mutation if the
goto raises), re-runs both dismissers and polls for the profile container.
The embedding records the sequence of primitive calls. -/

/-- Primitive effects of the navigator, in order of occurrence. -/
inductive SpaEv where
  | dismissDualLogin
  | dismissLogoutConfirm
  | gotoProfile
  | hashFallback
  | waitForProfile
deriving DecidableEq, Repr

/-- `spa_safe_goto_profile(page, cfg)`: `pageUrl` is `page.url` (`none` for
a missing URL, as `page.url or ""` defends against), `directGotoFails`
whether `page.goto` raises. -/
def spa_safe_goto_profile (pageUrl : Option String) (directGotoFails : Bool) :
    List SpaEv :=
  [SpaEv.dismissDualLogin, SpaEv.dismissLogoutConfirm] ++
    (if strContains (pyStrOr pageUrl "") "profileDetail" then []
     else
       (if directGotoFails then [SpaEv.gotoProfile, SpaEv.hashFallback]
        else [SpaEv.gotoProfile]) ++
         [SpaEv.dismissDualLogin, SpaEv.dismissLogoutConfirm,
          SpaEv.waitForProfile])

/-! ## `fetch_itr_profile_task` (app/tasks/profile_tasks.py lines 9-36)

The Celery wrapper runs the orchestration on a fresh event loop and returns
`{"status": "success", "data": result}` on success.  On an exception it
calls `self.retry(exc=e)`: with retries remaining, that raises a Celery
`Retry` which propagates out of the `except` block, so no envelope is
returned; only when `MaxRetriesExceededError` is raised does the function
fall through to `return {"status": "error", "message": str(e)}`. -/

/-- A value of the returned envelope dict. -/
inductive TaskVal where
  | str : String → TaskVal
  | payload : List (String × JsVal) → TaskVal
deriving DecidableEq, Repr

/-- What a task invocation does: return an envelope, or let the Celery
`Retry` exception propagate. -/
inductive TaskOutcome where
  | envelope : List (String × TaskVal) → TaskOutcome
  | retryRaised : TaskOutcome
deriving DecidableEq, Repr

/-- `fetch_itr_profile_task`: `res` is the orchestration's outcome (the
error component is `str(e)`), `maxRetriesExceeded` whether `self.retry`
raises `MaxRetriesExceededError` rather than `Retry`. -/
def fetch_itr_profile_task (res : Except String (List (String × JsVal)))
    (maxRetriesExceeded : Bool) : TaskOutcome :=
  match res with
  | .ok data => .envelope [("status", .str "success"), ("data", .payload data)]
  | .error e =>
    if maxRetriesExceeded then
      .envelope [("status", .str "error"), ("message", .str e)]
    else
      .retryRaised

/-! ## `fetch_itr_profile` (itr_service.py lines 470-618)

The orchestrator resolves the config (`user_id or os.getenv("ITR_USER_ID")
or ""`, etc.; `ScraperConfig` supplies `retries=3` and
`retry_backoff_base_ms=700`, never overridden here), raises `ValueError`
when either credential resolves empty, and only then opens Playwright:
persistent context when `user_data_dir` is set, else browser launch plus a
fresh context.  Inside the `try` it runs the login flow under
`retry_async(..., attempts=cfg.retries)`, the profile navigation under
`retry_async(..., attempts=max(2, cfg.retries - 1))`, extracts, optionally
saves JSON (write failures swallowed), and returns the profile.  The
`finally` closes the context and then the browser, each inside its own
`try/except Exception: pass`.

`do_login` raises `RuntimeError(reason)` when `detect_2fa_blockers` finds
an OTP/CAPTCHA/verification phrase; `retry_async` catches every
`Exception`, so that `RuntimeError` is retried exactly like any other
login failure.

The embedding abstracts one `do_login` attempt's outcome as
`loginOutcome i` and one `goto_profile` attempt's outcome as
`navOutcome i`; every `page.goto` of the run happens inside one of those
two stage actions, so a run with zero stage invocations performs zero
navigations. -/

/-- `ScraperConfig` with the dataclass defaults. -/
structure ScraperConfig where
  user_id : String
  password : String
  headless : Bool := true
  user_data_dir : Option String := none
  chrome_path : Option String := none
  save_json_path : Option String := none
  navigation_timeout_ms : Nat := 60000
  action_timeout_ms : Nat := 12000
  idle_wait_ms : Nat := 2500
  retries : Nat := 3
  retry_backoff_base_ms : Nat := 700
  block_media : Bool := true
  login_url : String := "https://eportal.incometax.gov.in/iec/foservices/#/login"
  profile_url : String :=
    "https://eportal.incometax.gov.in/iec/foservices/#/dashboard/myProfile/profileDetail"
deriving DecidableEq, Repr

/-- What one `do_login` attempt raises: the `RuntimeError` carrying the
blocker reason from `detect_2fa_blockers`, or any other exception
(timeout, selector miss, network failure), tagged by a code. -/
inductive LoginErr where
  | blocker : String → LoginErr
  | other : Nat → LoginErr
deriving DecidableEq, Repr

/-- What `fetch_itr_profile` raises. -/
inductive FetchErr where
  | valueError : FetchErr
  | launchError : FetchErr
  | newContextError : FetchErr
  | loginFailed : LoginErr → FetchErr
  | loginRaiseNone : FetchErr
  | navFailed : Nat → FetchErr
  | navRaiseNone : FetchErr
  | extractError : FetchErr
deriving DecidableEq, Repr

/-- The environment and injected stage outcomes of one run. -/
structure FetchWorld where
  envUserId : Option String := none
  envPassword : Option String := none
  envUserDataDir : Option String := none
  envChromePath : Option String := none
  launchOk : Bool := true
  newContextOk : Bool := true
  loginOutcome : Nat → Except LoginErr Unit := fun _ => .ok ()
  loginJitter : Nat → Nat := fun _ => 0
  navOutcome : Nat → Except Nat Unit := fun _ => .ok ()
  navJitter : Nat → Nat := fun _ => 0
  extractRaises : Bool := false
  extractLookup : String → String := fun _ => ""
  pageTitle : String := ""
  pageUrl : String := ""
  closeContextFails : Bool := false
  closeBrowserFails : Bool := false

/-- Observable behaviour of one `fetch_itr_profile` run. -/
structure FetchTrace where
  result : Except FetchErr (List (String × JsVal))
  persistentLaunches : Nat := 0
  browserLaunches : Nat := 0
  contextCreations : Nat := 0
  pageCreations : Nat := 0
  loginCalls : Nat := 0
  loginSleeps : List Nat := []
  navCalls : Nat := 0
  saveAttempts : Nat := 0
  contextCloseCalls : Nat := 0
  browserCloseCalls : Nat := 0
  closeEscaped : Bool := false
deriving DecidableEq, Repr

/-- `x.close()` raises iff `closeFails`. -/
def closeCall (closeFails : Bool) : Except Unit Unit :=
  if closeFails then .error () else .ok ()

/-- `try: if x: await x.close()` / `except Exception: pass`: one close call
when the resource exists; second component is whether an exception escapes
the block (the bare `except` means it never does). -/
def guardedClose (created closeFails : Bool) : Nat × Bool :=
  if created then
    match closeCall closeFails with
    | .ok _ => (1, false)
    | .error _ => (1, false)
  else (0, false)

/-- Outcome of the `try` body from the login stage onward. -/
structure StageOut where
  result : Except FetchErr (List (String × JsVal))
  loginCalls : Nat
  loginSleeps : List Nat
  navCalls : Nat
  saveAttempts : Nat
deriving DecidableEq, Repr

/-- Login retry loop, navigation retry loop, extraction, optional save. -/
def runStages (cfg : ScraperConfig) (w : FetchWorld) : StageOut :=
  let lt := retry_async w.loginOutcome (cfg.retries : Int)
    cfg.retry_backoff_base_ms w.loginJitter
  match lt.result with
  | .lastError e => ⟨.error (.loginFailed e), lt.calls, lt.sleeps, 0, 0⟩
  | .raiseNoneTypeError => ⟨.error .loginRaiseNone, lt.calls, lt.sleeps, 0, 0⟩
  | .ok _ =>
    let nt := retry_async w.navOutcome ((max 2 (cfg.retries - 1) : Nat) : Int)
      cfg.retry_backoff_base_ms w.navJitter
    match nt.result with
    | .lastError e => ⟨.error (.navFailed e), lt.calls, lt.sleeps, nt.calls, 0⟩
    | .raiseNoneTypeError =>
      ⟨.error .navRaiseNone, lt.calls, lt.sleeps, nt.calls, 0⟩
    | .ok _ =>
      if w.extractRaises then
        ⟨.error .extractError, lt.calls, lt.sleeps, nt.calls, 0⟩
      else
        ⟨.ok (extract_profile_data w.extractLookup w.pageTitle w.pageUrl),
          lt.calls, lt.sleeps, nt.calls,
          if cfg.save_json_path.isSome then 1 else 0⟩

/-- The `ScraperConfig(...)` construction at the top of `fetch_itr_profile`
(lines 485-492): explicit argument, else environment variable, else empty /
`None`; `retries`, backoff and the URLs keep their dataclass defaults. -/
def fetchCfg (argUserId argPassword : Option String) (argHeadless : Option Bool)
    (argUserDataDir argChromePath argSaveJson : Option String)
    (w : FetchWorld) : ScraperConfig :=
  { user_id := pyStrOr argUserId (pyStrOr w.envUserId "")
    password := pyStrOr argPassword (pyStrOr w.envPassword "")
    headless := match argHeadless with | none => true | some b => b
    user_data_dir := pyOptOr argUserDataDir w.envUserDataDir
    chrome_path := pyOptOr argChromePath w.envChromePath
    save_json_path := argSaveJson }

/-- The `async with async_playwright()` block: context creation
(persistent or ephemeral), the `try` body, and the `finally` closes. -/
def sessionRun (cfg : ScraperConfig) (w : FetchWorld) : FetchTrace :=
  if cfg.user_data_dir.isSome then
    -- persistent context
    if w.launchOk then
      let s := runStages cfg w
      { result := s.result
        persistentLaunches := 1
        contextCreations := 1
        pageCreations := 1
        loginCalls := s.loginCalls
        loginSleeps := s.loginSleeps
        navCalls := s.navCalls
        saveAttempts := s.saveAttempts
        contextCloseCalls := (guardedClose true w.closeContextFails).1
        browserCloseCalls := (guardedClose false w.closeBrowserFails).1
        closeEscaped := (guardedClose true w.closeContextFails).2 ||
          (guardedClose false w.closeBrowserFails).2 }
    else
      { result := .error .launchError
        contextCloseCalls := (guardedClose false w.closeContextFails).1
        browserCloseCalls := (guardedClose false w.closeBrowserFails).1
        closeEscaped := (guardedClose false w.closeContextFails).2 ||
          (guardedClose false w.closeBrowserFails).2 }
  else
    -- ephemeral browser + fresh context
    if w.launchOk then
      if w.newContextOk then
        let s := runStages cfg w
        { result := s.result
          browserLaunches := 1
          contextCreations := 1
          pageCreations := 1
          loginCalls := s.loginCalls
          loginSleeps := s.loginSleeps
          navCalls := s.navCalls
          saveAttempts := s.saveAttempts
          contextCloseCalls := (guardedClose true w.closeContextFails).1
          browserCloseCalls := (guardedClose true w.closeBrowserFails).1
          closeEscaped := (guardedClose true w.closeContextFails).2 ||
            (guardedClose true w.closeBrowserFails).2 }
      else
        { result := .error .newContextError
          browserLaunches := 1
          contextCloseCalls := (guardedClose false w.closeContextFails).1
          browserCloseCalls := (guardedClose true w.closeBrowserFails).1
          closeEscaped := (guardedClose false w.closeContextFails).2 ||
            (guardedClose true w.closeBrowserFails).2 }
    else
      { result := .error .launchError
        contextCloseCalls := (guardedClose false w.closeContextFails).1
        browserCloseCalls := (guardedClose false w.closeBrowserFails).1
        closeEscaped := (guardedClose false w.closeContextFails).2 ||
          (guardedClose false w.closeBrowserFails).2 }

/-- `fetch_itr_profile(user_id, password, headless, user_data_dir,
chrome_path, save_json_path)`. -/
def fetch_itr_profile (argUserId argPassword : Option String)
    (argHeadless : Option Bool)
    (argUserDataDir argChromePath argSaveJson : Option String)
    (w : FetchWorld) : FetchTrace :=
  let cfg := fetchCfg argUserId argPassword argHeadless argUserDataDir
    argChromePath argSaveJson w
  if cfg.user_id = "" ∨ cfg.password = "" then
    { result := .error .valueError }
  else
    sessionRun cfg w

/-- The reason string `detect_2fa_blockers` returns on a match. -/
def blockerReason : String :=
  "OTP/CAPTCHA or verification step detected; manual completion required."

/-- A run in which the blocker detector fires on every login attempt. -/
def blockerWorld : FetchWorld :=
  { loginOutcome := fun _ => Except.error (LoginErr.blocker blockerReason) }

/-! ## Sanity checks and supporting lemmas for the primitives -/

example :
    retry_async (fun _ => (Except.error 7 : Except Nat Nat)) 3 700 (fun _ => 5) =
      ⟨.lastError 7, 3, [(1, 7), (2, 7)], [705, 1405]⟩ := by decide

example :
    retry_async (fun i => if i = 2 then Except.ok 9 else (Except.error 7 : Except Nat Nat))
        3 700 (fun _ => 0) =
      ⟨.ok 9, 2, [(1, 7)], [700]⟩ := by decide

example :
    retry_async (fun _ => (Except.error 7 : Except Nat Nat)) 0 700 (fun _ => 0) =
      ⟨.raiseNoneTypeError, 0, [], []⟩ := by decide

theorem retryLoop_calls_le (outcomes : Nat → Except ε α) (base : Nat)
    (jitter : Nat → Nat) :
    ∀ rem i, (retryLoop outcomes base jitter i rem).calls ≤ rem := by
  intro rem
  induction rem with
  | zero => intro i; simp [retryLoop]
  | succ r ih =>
    intro i
    simp only [retryLoop]
    cases houtcome : outcomes i with
    | ok v => simp
    | error e =>
      by_cases hr : r = 0
      · subst hr; simp
      · simpa [hr] using ih (i + 1)

/-- One unfolding of the loop at a failing attempt that is not the last. -/
theorem retryLoop_step_error (outcomes : Nat → Except ε α) (base : Nat)
    (jitter : Nat → Nat) (i r : Nat) (e : ε)
    (hi : outcomes i = Except.error e) (hr : r ≠ 0) :
    retryLoop outcomes base jitter i (r + 1) =
      ⟨(retryLoop outcomes base jitter (i + 1) r).result,
        (retryLoop outcomes base jitter (i + 1) r).calls + 1,
        (i, e) :: (retryLoop outcomes base jitter (i + 1) r).onRetryCalls,
        (base * i + jitter i) ::
          (retryLoop outcomes base jitter (i + 1) r).sleeps⟩ := by
  conv_lhs => rw [retryLoop]
  rw [hi]
  simp [hr]

theorem retryLoop_allfail (outcomes : Nat → Except ε α) (base : Nat)
    (jitter : Nat → Nat) (errs : Nat → ε) :
    ∀ rem i, 1 ≤ rem →
      (∀ k, i ≤ k → k < i + rem → outcomes k = Except.error (errs k)) →
      retryLoop outcomes base jitter i rem =
        ⟨.lastError (errs (i + rem - 1)), rem,
          (List.range' i (rem - 1)).map (fun k => (k, errs k)),
          (List.range' i (rem - 1)).map (fun k => base * k + jitter k)⟩ := by
  intro rem
  induction rem with
  | zero => intro i h; omega
  | succ r ih =>
    intro i _ hfail
    have hi : outcomes i = Except.error (errs i) := hfail i le_rfl (by omega)
    by_cases hr : r = 0
    · subst hr; simp [retryLoop, hi]
    · have hrec := ih (i + 1) (by omega)
        (fun k hk1 hk2 => hfail k (by omega) (by omega))
      rw [retryLoop_step_error outcomes base jitter i r (errs i) hi hr, hrec]
      have harith : errs (i + 1 + r - 1) = errs (i + (r + 1) - 1) :=
        congrArg errs (by omega)
      have hrange : List.range' i r = i :: List.range' (i + 1) (r - 1) := by
        rw [show r = (r - 1) + 1 by omega]
        simp [List.range'_succ]
      simp [harith, hrange]

theorem retryLoop_firstSuccess (outcomes : Nat → Except ε α) (base : Nat)
    (jitter : Nat → Nat) (errs : Nat → ε) (v : α) :
    ∀ rem i m, 1 ≤ m → m ≤ rem →
      (∀ k, i ≤ k → k < i + m - 1 → outcomes k = Except.error (errs k)) →
      outcomes (i + m - 1) = Except.ok v →
      retryLoop outcomes base jitter i rem =
        ⟨.ok v, m,
          (List.range' i (m - 1)).map (fun k => (k, errs k)),
          (List.range' i (m - 1)).map (fun k => base * k + jitter k)⟩ := by
  intro rem
  induction rem with
  | zero => intro i m h1 h2; omega
  | succ r ih =>
    intro i m hm1 hmr hfail hok
    cases m with
    | zero => omega
    | succ m' =>
      cases m' with
      | zero =>
        have hi : outcomes i = Except.ok v := by
          have : i + 1 - 1 = i := by omega
          rw [← this]; exact hok
        simp [retryLoop, hi]
      | succ m'' =>
        have hi : outcomes i = Except.error (errs i) :=
          hfail i le_rfl (by omega)
        have hr0 : r ≠ 0 := by omega
        have hrec := ih (i + 1) (m'' + 1) (by omega) (by omega)
          (fun k hk1 hk2 => hfail k (by omega) (by omega))
          (by have : i + 1 + (m'' + 1) - 1 = i + (m'' + 1 + 1) - 1 := by omega
              rw [this]; exact hok)
        obtain ⟨r', rfl⟩ : ∃ r', r = r' + 1 := ⟨r - 1, by omega⟩
        rw [retryLoop_step_error outcomes base jitter i (r' + 1) (errs i) hi hr0,
          hrec]
        simp [List.range'_succ]

example : wait_until (fun k => if k = 3 then .ok true else .error ()) 2000 = true := by
  decide

example : wait_until (fun k => if k = 5 then .ok true else .error ()) 2000 = false := by
  decide

theorem waitLoop_eq_true_iff (polls : Nat → Except Unit Bool)
    (endT interval : Nat) :
    ∀ fuel t0 k0, endT ≤ t0 + fuel * interval →
      (waitLoop polls endT interval fuel t0 k0 = true ↔
        ∃ j, t0 + j * interval < endT ∧ polls (k0 + j) = Except.ok true) := by
  intro fuel
  induction fuel with
  | zero =>
    intro t0 k0 hfuel
    simp only [waitLoop]
    constructor
    · intro h; exact absurd h (by simp)
    · rintro ⟨j, hj, -⟩
      exact absurd hj (by simp at hfuel; omega)
  | succ f ih =>
    intro t0 k0 hfuel
    by_cases ht : t0 < endT
    · rcases hpoll : polls k0 with e | b
      · -- predicate raised: swallowed, loop continues
        have hstep : waitLoop polls endT interval (f + 1) t0 k0 =
            waitLoop polls endT interval f (t0 + interval) (k0 + 1) := by
          simp [waitLoop, ht, hpoll]
        rw [hstep, ih (t0 + interval) (k0 + 1) (by rw [Nat.succ_mul] at hfuel; omega)]
        constructor
        · rintro ⟨j, hj1, hj2⟩
          exact ⟨j + 1, by rw [Nat.succ_mul]; omega,
            by rw [show k0 + (j + 1) = k0 + 1 + j by omega]; exact hj2⟩
        · rintro ⟨j, hj1, hj2⟩
          cases j with
          | zero => rw [Nat.add_zero] at hj2; rw [hpoll] at hj2; exact absurd hj2 (by simp)
          | succ j' =>
            exact ⟨j', by rw [Nat.succ_mul] at hj1; omega,
              by rw [show k0 + 1 + j' = k0 + (j' + 1) by omega]; exact hj2⟩
      · cases b with
        | true =>
          have : waitLoop polls endT interval (f + 1) t0 k0 = true := by
            simp [waitLoop, ht, hpoll]
          rw [this]
          simp only [true_iff]
          exact ⟨0, by simpa using ht, by simpa using hpoll⟩
        | false =>
          have hstep : waitLoop polls endT interval (f + 1) t0 k0 =
              waitLoop polls endT interval f (t0 + interval) (k0 + 1) := by
            simp [waitLoop, ht, hpoll]
          rw [hstep, ih (t0 + interval) (k0 + 1) (by rw [Nat.succ_mul] at hfuel; omega)]
          constructor
          · rintro ⟨j, hj1, hj2⟩
            exact ⟨j + 1, by rw [Nat.succ_mul]; omega,
              by rw [show k0 + (j + 1) = k0 + 1 + j by omega]; exact hj2⟩
          · rintro ⟨j, hj1, hj2⟩
            cases j with
            | zero =>
              rw [Nat.add_zero] at hj2; rw [hpoll] at hj2
              exact absurd hj2 (by simp)
            | succ j' =>
              exact ⟨j', by rw [Nat.succ_mul] at hj1; omega,
                by rw [show k0 + 1 + j' = k0 + (j' + 1) by omega]; exact hj2⟩
    · have : waitLoop polls endT interval (f + 1) t0 k0 = false := by
        simp [waitLoop, ht]
      rw [this]
      refine iff_of_false (by simp) ?_
      rintro ⟨j, hj, -⟩
      omega

theorem waitLoop_swallow (polls : Nat → Except Unit Bool) (endT interval : Nat) :
    ∀ fuel t0 k0,
      waitLoop (swallowPolls polls) endT interval fuel t0 k0 =
        waitLoop polls endT interval fuel t0 k0 := by
  intro fuel
  induction fuel with
  | zero => intro t0 k0; rfl
  | succ f ih =>
    intro t0 k0
    by_cases ht : t0 < endT
    · rcases hpoll : polls k0 with e | b
      · have h1 : swallowPolls polls k0 = .ok false := by
          simp [swallowPolls, hpoll]
        simp [waitLoop, ht, hpoll, h1, ih]
      · have h1 : swallowPolls polls k0 = .ok b := by
          simp [swallowPolls, hpoll]
        cases b
        · simp [waitLoop, ht, hpoll, h1, ih]
        · simp [waitLoop, ht, hpoll, h1]
    · simp [waitLoop, ht]

example :
    strContains
      "https://eportal.incometax.gov.in/iec/foservices/#/dashboard/myProfile/profileDetail"
      "profileDetail" = true := by decide

example : strContains "https://x/#/login" "profileDetail" = false := by decide

theorem lookup_observedFields_of_empty (lookup : String → String)
    (l : String) (h : lookup l = "") :
    List.lookup l (observedFields lookup) = none := by
  unfold observedFields
  induction jsLabels with
  | nil => rfl
  | cons x xs ih =>
    simp only [List.filterMap_cons]
    by_cases hx : lookup x = ""
    · simpa [hx] using ih
    · simp only [hx, if_false, List.lookup_cons]
      by_cases hlx : l = x
      · subst hlx; exact absurd h hx
      · have : (l == x) = false := by simp [hlx]
        simpa [this] using ih

theorem mem_observedFields (lookup : String → String) (l v : String) :
    (l, v) ∈ observedFields lookup ↔
      l ∈ jsLabels ∧ lookup l = v ∧ v ≠ "" := by
  unfold observedFields
  rw [List.mem_filterMap]
  constructor
  · rintro ⟨a, ha, hav⟩
    by_cases haa : lookup a = ""
    · simp [haa] at hav
    · simp only [haa, if_false, Option.some.injEq, Prod.mk.injEq] at hav
      obtain ⟨rfl, rfl⟩ := hav
      exact ⟨ha, rfl, haa⟩
  · rintro ⟨hl, rfl, hv⟩
    exact ⟨l, hl, by simp [hv]⟩

/-! ## Supporting lemmas about the orchestrator -/

theorem guardedClose_eq (created b : Bool) :
    guardedClose created b = (if created then 1 else 0, false) := by
  cases created <;> cases b <;> rfl

theorem fetch_itr_profile_of_creds (argUserId argPassword : Option String)
    (argHeadless : Option Bool)
    (argUserDataDir argChromePath argSaveJson : Option String)
    (w : FetchWorld)
    (huid : pyStrOr argUserId (pyStrOr w.envUserId "") ≠ "")
    (hpwd : pyStrOr argPassword (pyStrOr w.envPassword "") ≠ "") :
    fetch_itr_profile argUserId argPassword argHeadless argUserDataDir
        argChromePath argSaveJson w =
      sessionRun (fetchCfg argUserId argPassword argHeadless argUserDataDir
        argChromePath argSaveJson w) w := by
  simp only [fetch_itr_profile]
  rw [if_neg]
  rintro (h | h)
  · exact huid h
  · exact hpwd h

theorem sessionRun_stage_fields (cfg : ScraperConfig) (w : FetchWorld)
    (hlaunch : w.launchOk = true) (hctx : w.newContextOk = true) :
    (sessionRun cfg w).result = (runStages cfg w).result ∧
    (sessionRun cfg w).loginCalls = (runStages cfg w).loginCalls ∧
    (sessionRun cfg w).loginSleeps = (runStages cfg w).loginSleeps ∧
    (sessionRun cfg w).navCalls = (runStages cfg w).navCalls := by
  unfold sessionRun
  by_cases hp : cfg.user_data_dir.isSome
  · simp [hp, hlaunch]
  · simp [hp, hlaunch, hctx]

theorem sessionRun_cleanup_fields (cfg : ScraperConfig) (w : FetchWorld)
    (hlaunch : w.launchOk = true) (hctx : w.newContextOk = true) :
    (sessionRun cfg w).contextCloseCalls = 1 ∧
    (sessionRun cfg w).browserCloseCalls =
      (if cfg.user_data_dir.isSome then 0 else 1) ∧
    (sessionRun cfg w).closeEscaped = false := by
  unfold sessionRun
  by_cases hp : cfg.user_data_dir.isSome
  · simp [hp, hlaunch, guardedClose_eq]
  · simp [hp, hlaunch, hctx, guardedClose_eq]

theorem sessionRun_close_flags_ignored (cfg : ScraperConfig)
    (w1 w2 : FetchWorld) (hL : w1.launchOk = w2.launchOk)
    (hC : w1.newContextOk = w2.newContextOk)
    (hS : runStages cfg w1 = runStages cfg w2) :
    sessionRun cfg w1 = sessionRun cfg w2 := by
  simp only [sessionRun]
  rw [hL, hC, hS]
  simp [guardedClose_eq]

theorem runStages_login_allfail (cfg : ScraperConfig) (w : FetchWorld)
    (errs : Nat → LoginErr) (hn : 1 ≤ cfg.retries)
    (hfail : ∀ k, 1 ≤ k → k ≤ cfg.retries →
      w.loginOutcome k = Except.error (errs k)) :
    runStages cfg w =
      ⟨.error (.loginFailed (errs cfg.retries)), cfg.retries,
        (List.range' 1 (cfg.retries - 1)).map
          (fun k => cfg.retry_backoff_base_ms * k + w.loginJitter k), 0, 0⟩ := by
  have hlt : retry_async w.loginOutcome (cfg.retries : Int)
      cfg.retry_backoff_base_ms w.loginJitter =
      ⟨.lastError (errs cfg.retries), cfg.retries,
        (List.range' 1 (cfg.retries - 1)).map (fun k => (k, errs k)),
        (List.range' 1 (cfg.retries - 1)).map
          (fun k => cfg.retry_backoff_base_ms * k + w.loginJitter k)⟩ := by
    rw [retry_async, Int.toNat_natCast,
      retryLoop_allfail w.loginOutcome cfg.retry_backoff_base_ms w.loginJitter
        errs cfg.retries 1 hn (fun k hk1 hk2 => hfail k hk1 (by omega)),
      show 1 + cfg.retries - 1 = cfg.retries by omega]
  simp only [runStages, hlt]

theorem fget_eq_empty (lookup : String → String) (l : String)
    (h : lookup l = "") : fget (observedFields lookup) l = "" := by
  unfold fget
  rw [lookup_observedFields_of_empty lookup l h]

/-! ## The claims -/

/-- C2: for every action, attempts count `n ≥ 1` and base backoff,
`retry_async` invokes the action at most `n` times; when the first `m - 1`
attempts fail and attempt `m` succeeds it returns that value having called
`on_retry` with `(i, error_i)` and slept `base * i + jitter_i` after each
failing attempt `i < m`; when all `n` attempts fail it performs exactly
`n` invocations, the `n - 1` observer calls and sleeps, and re-raises
exactly the last attempt's error; and with every jitter draw bounded by
`base // 3` (the range of `random.randint(0, base_backoff_ms // 3)`),
every sleep lies in `[base * i, base * i + base / 3]`. -/
theorem retry_async_spec (ε α : Type) (outcomes : Nat → Except ε α)
    (errs : Nat → ε) (n base : Nat) (jitter : Nat → Nat)
    (hn : 1 ≤ n) (hjit : ∀ k, jitter k ≤ base / 3) :
    (retry_async outcomes (n : Int) base jitter).calls ≤ n ∧
    ((∀ k, 1 ≤ k → k ≤ n → outcomes k = Except.error (errs k)) →
      retry_async outcomes (n : Int) base jitter =
        ⟨.lastError (errs n), n,
          (List.range' 1 (n - 1)).map (fun k => (k, errs k)),
          (List.range' 1 (n - 1)).map (fun k => base * k + jitter k)⟩) ∧
    (∀ m v, 1 ≤ m → m ≤ n →
      (∀ k, 1 ≤ k → k < m → outcomes k = Except.error (errs k)) →
      outcomes m = Except.ok v →
      retry_async outcomes (n : Int) base jitter =
        ⟨.ok v, m,
          (List.range' 1 (m - 1)).map (fun k => (k, errs k)),
          (List.range' 1 (m - 1)).map (fun k => base * k + jitter k)⟩) ∧
    (∀ k, base * k ≤ base * k + jitter k ∧
      base * k + jitter k ≤ base * k + base / 3) := by
  refine ⟨?_, ?_, ?_, ?_⟩
  · rw [retry_async, Int.toNat_natCast]
    exact retryLoop_calls_le outcomes base jitter n 1
  · intro hfail
    rw [retry_async, Int.toNat_natCast,
      retryLoop_allfail outcomes base jitter errs n 1 hn
        (fun k hk1 hk2 => hfail k hk1 (by omega)),
      show 1 + n - 1 = n by omega]
  · intro m v hm1 hmn hfail hok
    rw [retry_async, Int.toNat_natCast]
    exact retryLoop_firstSuccess outcomes base jitter errs v n 1 m hm1 hmn
      (fun k hk1 hk2 => hfail k hk1 (by omega))
      (by rw [show 1 + m - 1 = m by omega]; exact hok)
  · intro k
    exact ⟨Nat.le_add_right _ _, Nat.add_le_add_left (hjit k) _⟩

theorem retry_async_spec_witness :
    retry_async (fun _ => (Except.error 7 : Except Nat Nat)) ((3 : Nat) : Int)
        700 (fun _ => 5) =
      ⟨.lastError 7, 3, [(1, 7), (2, 7)], [705, 1405]⟩ := by
  have h := (retry_async_spec Nat Nat (fun _ => Except.error 7) (fun _ => 7)
    3 700 (fun _ => 5) (by decide)
    (fun k => by show (5 : Nat) ≤ 700 / 3; decide)).2.1
    (fun k h1 h2 => rfl)
  rw [h]
  decide

/-- C10: for `attempts ≤ 0` the `range(1, attempts + 1)` loop body never
runs, so `retry_async` never invokes the action and never returns a value:
`raise last_exc` re-raises the initial `None`, which produces a
`TypeError` — not any error originating from the action. -/
theorem retry_async_nonpositive_attempts (ε α : Type)
    (outcomes : Nat → Except ε α) (attempts : Int) (base : Nat)
    (jitter : Nat → Nat) (h : attempts ≤ 0) :
    retry_async outcomes attempts base jitter =
      ⟨.raiseNoneTypeError, 0, [], []⟩ := by
  rw [retry_async, Int.toNat_of_nonpos h]
  rfl

theorem retry_async_nonpositive_attempts_witness :
    retry_async (fun _ => (Except.error 3 : Except Nat Nat)) (-1) 700
        (fun _ => 0) =
      ⟨.raiseNoneTypeError, 0, [], []⟩ :=
  retry_async_nonpositive_attempts Nat Nat _ (-1) 700 _ (by decide)

/-- C3: `wait_until` is total into `Bool` — no poll outcome can make the
model raise, matching the bare `except` around the predicate; it returns
`true` exactly when some poll within the timeout window returns `True`
(`false` otherwise, including on timeout); and a stream in which every
raising poll is replaced by a `False` return produces the identical
result, so an exception is treated exactly as the predicate returning
false for that poll. -/
theorem wait_until_spec (polls : Nat → Except Unit Bool)
    (timeout_ms interval_ms : Nat) (hint : 1 ≤ interval_ms) :
    (wait_until polls timeout_ms interval_ms = true ↔
      ∃ k, k * interval_ms < timeout_ms ∧ polls k = Except.ok true) ∧
    wait_until (swallowPolls polls) timeout_ms interval_ms =
      wait_until polls timeout_ms interval_ms := by
  constructor
  · have hfuel : timeout_ms ≤ 0 + timeout_ms * interval_ms := by
      have h2 : timeout_ms * 1 ≤ timeout_ms * interval_ms :=
        Nat.mul_le_mul_left _ hint
      simpa using h2
    rw [wait_until, waitLoop_eq_true_iff polls timeout_ms interval_ms
      timeout_ms 0 0 hfuel]
    constructor
    · rintro ⟨j, h1, h2⟩
      exact ⟨j, by simpa using h1, by simpa using h2⟩
    · rintro ⟨k, h1, h2⟩
      exact ⟨k, by simpa using h1, by simpa using h2⟩
  · rw [wait_until, wait_until]
    exact waitLoop_swallow polls timeout_ms interval_ms timeout_ms 0 0

theorem wait_until_spec_witness :
    wait_until (fun k => if k = 3 then Except.ok true else Except.error ())
        2000 400 = true ∧
    wait_until
        (swallowPolls
          (fun k => if k = 3 then Except.ok true else Except.error ()))
        2000 400 =
      wait_until (fun k => if k = 3 then Except.ok true else Except.error ())
        2000 400 := by
  have h := wait_until_spec
    (fun k => if k = 3 then Except.ok true else Except.error ()) 2000 400
    (by decide)
  exact ⟨h.1.mpr ⟨3, by decide, by decide⟩, h.2⟩

/-- C4: when the user id or the password resolves empty (explicit argument
absent or empty, environment fallback absent or empty), `fetch_itr_profile`
raises `ValueError` before any session exists: no persistent launch, no
browser launch, no context, no login-stage or navigation-stage invocation —
and since every `page.goto` of the run lives inside those stage actions,
zero navigations occur. -/
theorem fetch_missing_credentials_no_session
    (argUserId argPassword : Option String) (argHeadless : Option Bool)
    (argUserDataDir argChromePath argSaveJson : Option String)
    (w : FetchWorld)
    (h : pyStrOr argUserId (pyStrOr w.envUserId "") = "" ∨
      pyStrOr argPassword (pyStrOr w.envPassword "") = "") :
    fetch_itr_profile argUserId argPassword argHeadless argUserDataDir
        argChromePath argSaveJson w =
      { result := Except.error FetchErr.valueError } ∧
    (fetch_itr_profile argUserId argPassword argHeadless argUserDataDir
        argChromePath argSaveJson w).persistentLaunches = 0 ∧
    (fetch_itr_profile argUserId argPassword argHeadless argUserDataDir
        argChromePath argSaveJson w).browserLaunches = 0 ∧
    (fetch_itr_profile argUserId argPassword argHeadless argUserDataDir
        argChromePath argSaveJson w).contextCreations = 0 ∧
    (fetch_itr_profile argUserId argPassword argHeadless argUserDataDir
        argChromePath argSaveJson w).loginCalls = 0 ∧
    (fetch_itr_profile argUserId argPassword argHeadless argUserDataDir
        argChromePath argSaveJson w).navCalls = 0 := by
  have heq : fetch_itr_profile argUserId argPassword argHeadless
      argUserDataDir argChromePath argSaveJson w =
      { result := Except.error FetchErr.valueError } := by
    have h' : (fetchCfg argUserId argPassword argHeadless argUserDataDir
        argChromePath argSaveJson w).user_id = "" ∨
        (fetchCfg argUserId argPassword argHeadless argUserDataDir
        argChromePath argSaveJson w).password = "" := h
    simp only [fetch_itr_profile]
    rw [if_pos h']
  exact ⟨heq, by rw [heq], by rw [heq], by rw [heq], by rw [heq], by rw [heq]⟩

theorem fetch_missing_credentials_no_session_witness :
    fetch_itr_profile (some "USERID") none none none none none {} =
      { result := Except.error FetchErr.valueError } ∧
    (fetch_itr_profile (some "USERID") none none none none none
      ({} : FetchWorld)).loginCalls = 0 :=
  let h := fetch_missing_credentials_no_session (some "USERID") none none
    none none none {} (Or.inr rfl)
  ⟨h.1, h.2.2.2.2.1⟩

/-- C5: for a run with resolved credentials whose login action fails on
every attempt, the orchestrator performs exactly `cfg.retries = 3` login
attempts before failing, and the delays slept between consecutive attempts
(`base * i + jitter_i` with `jitter_i ≤ base // 3`) are non-decreasing in
the attempt number, for every draw of the jitter. -/
theorem fetch_login_retry_count_and_backoff
    (argUserId argPassword : Option String) (argHeadless : Option Bool)
    (argUserDataDir argChromePath argSaveJson : Option String)
    (w : FetchWorld) (errs : Nat → LoginErr)
    (huid : pyStrOr argUserId (pyStrOr w.envUserId "") ≠ "")
    (hpwd : pyStrOr argPassword (pyStrOr w.envPassword "") ≠ "")
    (hlaunch : w.launchOk = true) (hctx : w.newContextOk = true)
    (hfail : ∀ k, 1 ≤ k → k ≤ 3 → w.loginOutcome k = Except.error (errs k))
    (hjit : ∀ k, w.loginJitter k ≤ 700 / 3) :
    (fetch_itr_profile argUserId argPassword argHeadless argUserDataDir
        argChromePath argSaveJson w).loginCalls = 3 ∧
    (fetch_itr_profile argUserId argPassword argHeadless argUserDataDir
        argChromePath argSaveJson w).loginSleeps =
      [700 * 1 + w.loginJitter 1, 700 * 2 + w.loginJitter 2] ∧
    List.Chain' (· ≤ ·)
      ((fetch_itr_profile argUserId argPassword argHeadless argUserDataDir
        argChromePath argSaveJson w).loginSleeps) := by
  rw [fetch_itr_profile_of_creds argUserId argPassword argHeadless
    argUserDataDir argChromePath argSaveJson w huid hpwd]
  set cfg := fetchCfg argUserId argPassword argHeadless argUserDataDir
    argChromePath argSaveJson w with hcfg
  have hstage := sessionRun_stage_fields cfg w hlaunch hctx
  have hrun := runStages_login_allfail cfg w errs
    (show (1 : Nat) ≤ 3 by decide) (fun k hk1 hk2 => hfail k hk1 hk2)
  have hcalls : (runStages cfg w).loginCalls = 3 := by rw [hrun]; rfl
  have hsleeps : (runStages cfg w).loginSleeps =
      [700 * 1 + w.loginJitter 1, 700 * 2 + w.loginJitter 2] := by
    rw [hrun]; rfl
  refine ⟨?_, ?_, ?_⟩
  · rw [hstage.2.1, hcalls]
  · rw [hstage.2.2.1, hsleeps]
  · rw [hstage.2.2.1, hsleeps]
    have h1 := hjit 1
    simp only [List.chain'_cons, List.chain'_singleton, and_true]
    omega

theorem fetch_login_retry_count_and_backoff_witness :
    (fetch_itr_profile (some "USERID") (some "pw") none none none none
      { loginOutcome := fun _ => Except.error (LoginErr.other 0) }).loginCalls
        = 3 ∧
    List.Chain' (· ≤ ·)
      ((fetch_itr_profile (some "USERID") (some "pw") none none none none
        { loginOutcome := fun _ =>
            Except.error (LoginErr.other 0) }).loginSleeps) :=
  let h := fetch_login_retry_count_and_backoff (some "USERID") (some "pw")
    none none none none
    { loginOutcome := fun _ => Except.error (LoginErr.other 0) }
    (fun _ => LoginErr.other 0) (by decide) (by decide) rfl rfl
    (fun k h1 h2 => rfl) (fun k => by show (0 : Nat) ≤ 700 / 3; decide)
  ⟨h.1, h.2.2⟩

/-- C1 counterexample: with valid credentials and the blocker detector
firing on login attempt 1 (raising the portal-challenge `RuntimeError`),
`fetch_itr_profile` invokes the login action three times — two further
invocations occur after the attempt on which the blocker fired, because
`retry_async` catches every `Exception` including this one.  The claimed
absence of subsequent login invocations is false. -/
theorem fetch_blocker_retried_cex :
    blockerWorld.loginOutcome 1 =
      Except.error (LoginErr.blocker blockerReason) ∧
    (fetch_itr_profile (some "USERID") (some "pw") none none none none
      blockerWorld).loginCalls = 3 ∧
    ¬ (fetch_itr_profile (some "USERID") (some "pw") none none none none
      blockerWorld).loginCalls ≤ 1 := by
  refine ⟨rfl, rfl, by decide⟩

/-- C1 amended: the portal-challenge error raised when the blocker detector
fires during login is retried by `retry_async` exactly like any other login
failure; when the blocker fires on every attempt, the login action is
invoked exactly `cfg.retries = 3` times, and the portal-challenge error of
the last attempt is what propagates out of `fetch_itr_profile`. -/
theorem fetch_blocker_retried_then_propagates
    (argUserId argPassword : Option String) (argHeadless : Option Bool)
    (argUserDataDir argChromePath argSaveJson : Option String)
    (w : FetchWorld) (reasons : Nat → String)
    (huid : pyStrOr argUserId (pyStrOr w.envUserId "") ≠ "")
    (hpwd : pyStrOr argPassword (pyStrOr w.envPassword "") ≠ "")
    (hlaunch : w.launchOk = true) (hctx : w.newContextOk = true)
    (hblock : ∀ k, 1 ≤ k → k ≤ 3 →
      w.loginOutcome k = Except.error (LoginErr.blocker (reasons k))) :
    (fetch_itr_profile argUserId argPassword argHeadless argUserDataDir
      argChromePath argSaveJson w).loginCalls = 3 ∧
    (fetch_itr_profile argUserId argPassword argHeadless argUserDataDir
      argChromePath argSaveJson w).result =
      Except.error (FetchErr.loginFailed (LoginErr.blocker (reasons 3))) := by
  rw [fetch_itr_profile_of_creds argUserId argPassword argHeadless
    argUserDataDir argChromePath argSaveJson w huid hpwd]
  set cfg := fetchCfg argUserId argPassword argHeadless argUserDataDir
    argChromePath argSaveJson w with hcfg
  have hstage := sessionRun_stage_fields cfg w hlaunch hctx
  have hrun := runStages_login_allfail cfg w
    (fun k => LoginErr.blocker (reasons k)) (show (1 : Nat) ≤ 3 by decide)
    (fun k hk1 hk2 => hblock k hk1 hk2)
  refine ⟨?_, ?_⟩
  · rw [hstage.2.1, hrun]; rfl
  · rw [hstage.1, hrun]; rfl

theorem fetch_blocker_retried_then_propagates_witness :
    (fetch_itr_profile (some "USERID2") (some "pw") none none none none
      blockerWorld).loginCalls = 3 ∧
    (fetch_itr_profile (some "USERID2") (some "pw") none none none none
      blockerWorld).result =
      Except.error (FetchErr.loginFailed (LoginErr.blocker blockerReason)) :=
  fetch_blocker_retried_then_propagates (some "USERID2") (some "pw") none
    none none none blockerWorld (fun _ => blockerReason) (by decide)
    (by decide) rfl rfl (fun k h1 h2 => rfl)

/-- C9: every run that reaches session creation closes it exactly once on
every exit path (success, or failure injected at the login, navigation or
extraction stage): the context close is attempted exactly once, the
browser close exactly once in the ephemeral case (the persistent case has
no separate browser object), no exception escapes the cleanup block, and
flipping the close-failure flags changes nothing about the run's trace —
a failing close neither masks the primary result nor prevents closing the
other resource. -/
theorem fetch_session_closed_exactly_once
    (argUserId argPassword : Option String) (argHeadless : Option Bool)
    (argUserDataDir argChromePath argSaveJson : Option String)
    (w : FetchWorld)
    (huid : pyStrOr argUserId (pyStrOr w.envUserId "") ≠ "")
    (hpwd : pyStrOr argPassword (pyStrOr w.envPassword "") ≠ "")
    (hlaunch : w.launchOk = true) (hctx : w.newContextOk = true) :
    (fetch_itr_profile argUserId argPassword argHeadless argUserDataDir
      argChromePath argSaveJson w).contextCloseCalls = 1 ∧
    (fetch_itr_profile argUserId argPassword argHeadless argUserDataDir
      argChromePath argSaveJson w).browserCloseCalls =
      (if (pyOptOr argUserDataDir w.envUserDataDir).isSome then 0 else 1) ∧
    (fetch_itr_profile argUserId argPassword argHeadless argUserDataDir
      argChromePath argSaveJson w).closeEscaped = false ∧
    (∀ b1 b2 : Bool,
      fetch_itr_profile argUserId argPassword argHeadless argUserDataDir
        argChromePath argSaveJson
        { w with closeContextFails := b1, closeBrowserFails := b2 } =
      fetch_itr_profile argUserId argPassword argHeadless argUserDataDir
        argChromePath argSaveJson w) := by
  rw [fetch_itr_profile_of_creds argUserId argPassword argHeadless
    argUserDataDir argChromePath argSaveJson w huid hpwd]
  set cfg := fetchCfg argUserId argPassword argHeadless argUserDataDir
    argChromePath argSaveJson w with hcfg
  have hclean := sessionRun_cleanup_fields cfg w hlaunch hctx
  refine ⟨hclean.1, ?_, hclean.2.2, ?_⟩
  · rw [hclean.2.1]; rfl
  · intro b1 b2
    rw [fetch_itr_profile_of_creds argUserId argPassword argHeadless
      argUserDataDir argChromePath argSaveJson
      { w with closeContextFails := b1, closeBrowserFails := b2 } huid hpwd]
    exact sessionRun_close_flags_ignored cfg
      { w with closeContextFails := b1, closeBrowserFails := b2 } w
      rfl rfl rfl

theorem fetch_session_closed_exactly_once_witness :
    (fetch_itr_profile (some "USERID") (some "pw") none none none none
      ({} : FetchWorld)).contextCloseCalls = 1 ∧
    (fetch_itr_profile (some "USERID") (some "pw") none none none none
      ({} : FetchWorld)).browserCloseCalls =
      (if (pyOptOr none ({} : FetchWorld).envUserDataDir).isSome
        then 0 else 1) :=
  let h := fetch_session_closed_exactly_once (some "USERID") (some "pw")
    none none none none {} (by decide) (by decide) rfl rfl
  ⟨h.1, h.2.1⟩

/-- C6: for every page state, the record returned by
`extract_profile_data` contains every one of the eleven canonical keys
with a string value; each data key whose label(s) were not found carries
the empty string (the key is present, never absent); and the `raw` sub-map
holds exactly the label/value pairs the in-page search observed (a label
appears iff it is in the label list and its cascade produced a non-empty
value). -/
theorem extract_profile_data_record_shape (lookup : String → String)
    (title url : String) :
    (∀ key ∈ profileStringKeys, ∃ s,
      List.lookup key (extract_profile_data lookup title url) =
        some (JsVal.str s)) ∧
    List.lookup "raw" (extract_profile_data lookup title url) =
      some (JsVal.obj (observedFields lookup)) ∧
    (∀ l v, (l, v) ∈ observedFields lookup ↔
      l ∈ jsLabels ∧ lookup l = v ∧ v ≠ "") ∧
    (lookup "Name of Organisation" = "" →
      lookup "Name of Organization" = "" → lookup "Name as per PAN" = "" →
      List.lookup "nameOfOrganisation"
        (extract_profile_data lookup title url) = some (JsVal.str "")) ∧
    (lookup "Date of Incorporation" = "" →
      List.lookup "dateOfIncorporation"
        (extract_profile_data lookup title url) = some (JsVal.str "")) ∧
    (lookup "PAN" = "" →
      List.lookup "pan" (extract_profile_data lookup title url) =
        some (JsVal.str "")) ∧
    (lookup "PAN Status" = "" →
      List.lookup "panStatus" (extract_profile_data lookup title url) =
        some (JsVal.str "")) ∧
    (lookup "Residential Status" = "" →
      List.lookup "residentialStatus"
        (extract_profile_data lookup title url) = some (JsVal.str "")) ∧
    (lookup "Type of Company" = "" →
      lookup "Constitution of Business" = "" →
      List.lookup "typeOfCompany" (extract_profile_data lookup title url) =
        some (JsVal.str "")) ∧
    (lookup "Email" = "" →
      List.lookup "email" (extract_profile_data lookup title url) =
        some (JsVal.str "")) ∧
    (lookup "Mobile" = "" →
      List.lookup "mobile" (extract_profile_data lookup title url) =
        some (JsVal.str "")) ∧
    (lookup "Address" = "" →
      List.lookup "address" (extract_profile_data lookup title url) =
        some (JsVal.str "")) := by
  refine ⟨?_, rfl, fun l v => mem_observedFields lookup l v,
    ?_, ?_, ?_, ?_, ?_, ?_, ?_, ?_, ?_⟩
  · intro key hkey
    fin_cases hkey <;> exact ⟨_, rfl⟩
  · intro h1 h2 h3
    have heq : List.lookup "nameOfOrganisation"
        (extract_profile_data lookup title url) =
        some (JsVal.str (pyNormalize
          (jsOr (fget (observedFields lookup) "Name of Organisation")
            (jsOr (fget (observedFields lookup) "Name of Organization")
              (fget (observedFields lookup) "Name as per PAN"))))) := rfl
    rw [heq, fget_eq_empty lookup _ h1, fget_eq_empty lookup _ h2,
      fget_eq_empty lookup _ h3]
    rfl
  · intro h1
    have heq : List.lookup "dateOfIncorporation"
        (extract_profile_data lookup title url) =
        some (JsVal.str (pyNormalize
          (fget (observedFields lookup) "Date of Incorporation"))) := rfl
    rw [heq, fget_eq_empty lookup _ h1]
    rfl
  · intro h1
    have heq : List.lookup "pan" (extract_profile_data lookup title url) =
        some (JsVal.str (pyNormalize
          (fget (observedFields lookup) "PAN"))) := rfl
    rw [heq, fget_eq_empty lookup _ h1]
    rfl
  · intro h1
    have heq : List.lookup "panStatus"
        (extract_profile_data lookup title url) =
        some (JsVal.str (pyNormalize
          (fget (observedFields lookup) "PAN Status"))) := rfl
    rw [heq, fget_eq_empty lookup _ h1]
    rfl
  · intro h1
    have heq : List.lookup "residentialStatus"
        (extract_profile_data lookup title url) =
        some (JsVal.str (pyNormalize
          (fget (observedFields lookup) "Residential Status"))) := rfl
    rw [heq, fget_eq_empty lookup _ h1]
    rfl
  · intro h1 h2
    have heq : List.lookup "typeOfCompany"
        (extract_profile_data lookup title url) =
        some (JsVal.str (pyNormalize
          (jsOr (fget (observedFields lookup) "Type of Company")
            (fget (observedFields lookup) "Constitution of Business")))) :=
      rfl
    rw [heq, fget_eq_empty lookup _ h1, fget_eq_empty lookup _ h2]
    rfl
  · intro h1
    have heq : List.lookup "email" (extract_profile_data lookup title url) =
        some (JsVal.str (pyNormalize
          (fget (observedFields lookup) "Email"))) := rfl
    rw [heq, fget_eq_empty lookup _ h1]
    rfl
  · intro h1
    have heq : List.lookup "mobile"
        (extract_profile_data lookup title url) =
        some (JsVal.str (pyNormalize
          (fget (observedFields lookup) "Mobile"))) := rfl
    rw [heq, fget_eq_empty lookup _ h1]
    rfl
  · intro h1
    have heq : List.lookup "address"
        (extract_profile_data lookup title url) =
        some (JsVal.str (pyNormalize
          (fget (observedFields lookup) "Address"))) := rfl
    rw [heq, fget_eq_empty lookup _ h1]
    rfl

theorem extract_profile_data_record_shape_witness :
    List.lookup "pan" (extract_profile_data (fun _ => "") "T" "U") =
      some (JsVal.str "") ∧
    List.lookup "raw" (extract_profile_data (fun _ => "") "T" "U") =
      some (JsVal.obj (observedFields (fun _ => ""))) :=
  let h := extract_profile_data_record_shape (fun _ => "") "T" "U"
  ⟨h.2.2.2.2.2.1 rfl, h.2.1⟩

/-- C7: when the current URL already contains the profile-detail marker,
`spa_safe_goto_profile` performs zero `page.goto` invocations and returns
immediately after the two modal-dismissal checks, making the navigator
idempotent with respect to navigation. -/
theorem spa_goto_idempotent_short_circuit (pageUrl : Option String)
    (directGotoFails : Bool)
    (h : strContains (pyStrOr pageUrl "") "profileDetail" = true) :
    spa_safe_goto_profile pageUrl directGotoFails =
      [SpaEv.dismissDualLogin, SpaEv.dismissLogoutConfirm] ∧
    SpaEv.gotoProfile ∉ spa_safe_goto_profile pageUrl directGotoFails := by
  have heq : spa_safe_goto_profile pageUrl directGotoFails =
      [SpaEv.dismissDualLogin, SpaEv.dismissLogoutConfirm] := by
    simp [spa_safe_goto_profile, h]
  exact ⟨heq, by rw [heq]; decide⟩

theorem spa_goto_idempotent_short_circuit_witness :
    spa_safe_goto_profile
        (some "https://eportal.incometax.gov.in/iec/foservices/#/dashboard/myProfile/profileDetail")
        true =
      [SpaEv.dismissDualLogin, SpaEv.dismissLogoutConfirm] :=
  (spa_goto_idempotent_short_circuit
    (some "https://eportal.incometax.gov.in/iec/foservices/#/dashboard/myProfile/profileDetail")
    true (by decide)).1

/-- C8 counterexample: the wrapper's success envelope has status
`"success"`, which is none of `"SUCCESS"`, `"FAILURE"`, `"error"`, and its
failure envelope carries a `"message"` field and no `"error"` field — the
claimed envelope shape is false on both counts. -/
theorem task_envelope_status_cex :
    fetch_itr_profile_task (Except.ok []) true =
      .envelope [("status", .str "success"), ("data", .payload [])] ∧
    ("success" ≠ "SUCCESS" ∧ "success" ≠ "FAILURE" ∧
      "success" ≠ "error") ∧
    fetch_itr_profile_task (Except.error "boom") true =
      .envelope [("status", .str "error"), ("message", .str "boom")] ∧
    List.lookup "error"
      [("status", TaskVal.str "error"), ("message", TaskVal.str "boom")] =
      none := by
  refine ⟨rfl, by decide, rfl, by decide⟩

/-- C8 amended: whenever the background-task wrapper returns an envelope
(success, or failure after Celery retries are exhausted — an intermediate
failure re-raises `Retry` and returns no envelope), its status is exactly
one of `"success"` or `"error"`, with a `data` field on success and a
`message` field on failure. -/
theorem task_envelope_shape (res : Except String (List (String × JsVal)))
    (b : Bool) (e : List (String × TaskVal))
    (h : fetch_itr_profile_task res b = .envelope e) :
    (List.lookup "status" e = some (TaskVal.str "success") ∧
      ∃ d, List.lookup "data" e = some (TaskVal.payload d)) ∨
    (List.lookup "status" e = some (TaskVal.str "error") ∧
      ∃ m, List.lookup "message" e = some (TaskVal.str m)) := by
  cases res with
  | ok data =>
    simp only [fetch_itr_profile_task] at h
    cases h
    left
    exact ⟨rfl, data, rfl⟩
  | error msg =>
    cases b with
    | false => simp [fetch_itr_profile_task] at h
    | true =>
      simp only [fetch_itr_profile_task, if_pos] at h
      cases h
      right
      exact ⟨rfl, msg, rfl⟩

theorem task_envelope_shape_witness :
    (List.lookup "status"
        [("status", TaskVal.str "success"),
          ("data", TaskVal.payload [])] = some (TaskVal.str "success") ∧
      ∃ d, List.lookup "data"
        [("status", TaskVal.str "success"), ("data", TaskVal.payload [])] =
          some (TaskVal.payload d)) ∨
    (List.lookup "status"
        [("status", TaskVal.str "success"),
          ("data", TaskVal.payload [])] = some (TaskVal.str "error") ∧
      ∃ m, List.lookup "message"
        [("status", TaskVal.str "success"), ("data", TaskVal.payload [])] =
          some (TaskVal.str m)) :=
  task_envelope_shape (Except.ok []) true
    [("status", TaskVal.str "success"), ("data", TaskVal.payload [])] rfl

end ItrService
